import Mathlib

/-!
Verification of the CreditUdaan credit-analysis pipeline.

Shallow embedding of the extraction, consolidation and scoring code:
`credit_analyzer.py` (pattern-based field extraction, subscription
detection, tabular-row classification, consolidation), `app.py` (the
web-facing feature construction and direct-prediction path) and
`model.py` / `app.py` (the `CreditScoreNet` forward pass).

Text is modelled as `List Char`.  The concrete regular expressions of the
source are embedded as deterministic matchers; for each pattern used by
the code, greedy matching with the source's character classes coincides
with the backtracking semantics of the Python `re` engine (the classes in
each pattern are disjoint from the characters that follow them, except for
the days-past-due pattern whose backtracking case is modelled explicitly).
Python `float` on the captured token grammar (digits, commas, dots, commas
stripped before the call) is embedded as an `Option`-valued parser, and a
raised `ValueError` is modelled by the `Except` monad.  Rationals stand in
for Python floats; all numbers reached by the claims are exactly
representable.
-/

namespace CreditUdaan

/-- ASCII whitespace, the characters matched by the regex class used by the
source patterns. -/
def pyIsSpace (c : Char) : Bool :=
  c = ' ' || c = '\t' || c = '\n' || c = '\x0d' || c = '\x0b' || c = '\x0c'

/-- Characters of the numeric-token class of the utilization and
account-age patterns: digits, comma, dot. -/
def isNumTok (c : Char) : Bool :=
  c.isDigit || c = ',' || c = '.'

/-- Characters of the days-past-due run class: digits and whitespace. -/
def isDigSpace (c : Char) : Bool :=
  c.isDigit || pyIsSpace c

/-- Case-insensitive character comparison (ASCII case folding), modelling
the IGNORECASE flag. -/
def charEqCI (c d : Char) : Bool :=
  c.toLower == d.toLower

/-- Match a literal case-insensitively at the head of the input, returning
the remainder on success. -/
def matchLitCI : List Char → List Char → Option (List Char)
  | [], s => some s
  | _ :: _, [] => none
  | c :: cs, x :: xs => if charEqCI c x then matchLitCI cs xs else none

/-- Match a literal case-sensitively at the head of the input, returning
the remainder on success. -/
def matchLitCS : List Char → List Char → Option (List Char)
  | [], s => some s
  | _ :: _, [] => none
  | c :: cs, x :: xs => if c = x then matchLitCS cs xs else none

/-- Greedy whitespace skip, the embedding of a maximal run consumed by a
whitespace-star regex piece followed by a non-whitespace character. -/
def skipWS (s : List Char) : List Char :=
  s.dropWhile pyIsSpace

/-- Remove every comma, modelling the comma strip the source applies to a
captured numeric token before calling Python float. -/
def stripCommas (s : List Char) : List Char :=
  s.filter (fun c => c != ',')

/-- Value of a digit string, used for the int conversions of the source
(their captures are nonempty digit runs, so Python int never fails). -/
def digitsToNat (s : List Char) : ℕ :=
  s.foldl (fun a c => 10 * a + (c.toNat - 48)) 0

/-- Python float on a comma-stripped capture of the digits-comma-dot
class: accepts an optional integer part, an optional dot and an optional
fraction part, with at least one digit overall and nothing else; any other
shape raises ValueError, modelled as none. -/
def pyFloatDD (s : List Char) : Option ℚ :=
  let ip := s.takeWhile Char.isDigit
  match s.dropWhile Char.isDigit with
  | [] => if ip.isEmpty then none else some (digitsToNat ip : ℚ)
  | '.' :: rest2 =>
    let fp := rest2.takeWhile Char.isDigit
    if (rest2.dropWhile Char.isDigit).isEmpty && (!ip.isEmpty || !fp.isEmpty) then
      some ((digitsToNat ip : ℚ) + (digitsToNat fp : ℚ) / (10 : ℚ) ^ fp.length)
    else
      none
  | _ => none

/-- Python float lifted into the exception monad: a malformed token raises
ValueError. -/
def pyFloatE (s : List Char) : Except Unit ℚ :=
  match pyFloatDD s with
  | some v => Except.ok v
  | none => Except.error ()

/-- Leftmost search: try the position matcher at every suffix in order,
the embedding of re.search. -/
def searchO {α : Type} (m : List Char → Option α) : List Char → Option α
  | [] => m []
  | x :: t => (m (x :: t)).orElse fun _ => searchO m t

/-- Boolean leftmost scan: does the position predicate hold at some
suffix. -/
def scanAny (m : List Char → Bool) : List Char → Bool
  | [] => m []
  | x :: t => m (x :: t) || scanAny m t

/-- Count the non-overlapping matches of a position matcher that returns
the remainder after a match, the embedding of len of re.findall.  The fuel
equals the text length; every pattern counted by the source consumes at
least one character per match, so the fuel never runs out early. -/
def countAux (m : List Char → Option (List Char)) : ℕ → List Char → ℕ
  | 0, _ => 0
  | _ + 1, [] => 0
  | f + 1, x :: t =>
    match m (x :: t) with
    | some rest => 1 + countAux m f rest
    | none => countAux m f t

/-- Number of non-overlapping matches in a text. -/
def countMatches (m : List Char → Option (List Char)) (s : List Char) : ℕ :=
  countAux m s.length s

/-- Collect the captures of all non-overlapping matches of a position
matcher returning a capture and the remainder, the embedding of re.findall
with one group. -/
def findAllAux (m : List Char → Option (List Char × List Char)) :
    ℕ → List Char → List (List Char)
  | 0, _ => []
  | _ + 1, [] => []
  | f + 1, x :: t =>
    match m (x :: t) with
    | some (cap, rest) => cap :: findAllAux m f rest
    | none => findAllAux m f t

/-- Split on whitespace runs, dropping empty tokens: the embedding of
Python str.split with no argument (after strip, which split already
subsumes). -/
def splitWSAux : ℕ → List Char → List (List Char)
  | 0, _ => []
  | f + 1, s =>
    match s.dropWhile pyIsSpace with
    | [] => []
    | x :: t =>
      (x :: t).takeWhile (fun c => !pyIsSpace c) ::
        splitWSAux f ((x :: t).dropWhile (fun c => !pyIsSpace c))

/-- Whitespace tokenisation of a string. -/
def splitWS (s : List Char) : List (List Char) :=
  splitWSAux s.length s

/-- Python str.isdigit on a token: nonempty and all digits. -/
def pyStrIsdigit (x : List Char) : Bool :=
  !x.isEmpty && x.all Char.isDigit

/-- Label of the first utilization pattern of `extract_credit_info`. -/
def creditUtilizationLit : List Char := "Credit Utilization".toList

/-- Label of the second, generic utilization pattern. -/
def utilizationLit : List Char := "Utilization".toList

/-- Label of the explicit open-accounts pattern. -/
def openAccountsLit : List Char := "Open Accounts".toList

/-- Label of the account-age patterns. -/
def accountAgeLit : List Char := "Account Age".toList

/-- Unit suffix of the years account-age pattern. -/
def yrsLit : List Char := "yrs".toList

/-- Unit suffix of the months account-age pattern. -/
def monthsLit : List Char := "months".toList

/-- Literal of the credit-card pattern and of its fallback count. -/
def creditCardLit : List Char := "Credit Card".toList

/-- Literal of the loan pattern and of its fallback count. -/
def loanLit : List Char := "Loan".toList

/-- Literal counted for recent inquiries. -/
def enquiryDateLit : List Char := "Enquiry Date".toList

/-- Literal of the late-payment pattern. -/
def latePaymentLit : List Char := "Late Payment".toList

/-- Literal of the missed-payment pattern. -/
def missedPaymentLit : List Char := "Missed Payment".toList

/-- Literal opening the status-open and status-closed markers. -/
def statusLit : List Char := "Status".toList

/-- Open marker suffix. -/
def openLit : List Char := "Open".toList

/-- Closed marker suffix. -/
def closedLit : List Char := "Closed".toList

/-- Literal of the days-past-due pattern (matched case-sensitively: the
source compiles it without the IGNORECASE flag). -/
def dpdLit : List Char := "DPD".toList

/-- Position matcher for a pattern of shape label, whitespace, colon,
whitespace, a nonempty capture of digits-commas-dots, then a percent sign;
returns the capture.  The numeric class excludes the percent sign and the
colon is not whitespace, so greedy matching equals the regex semantics. -/
def matchNumPctAt (label : List Char) (s : List Char) : Option (List Char) :=
  (matchLitCI label s).bind fun r1 =>
    match skipWS r1 with
    | ':' :: r3 =>
      let r4 := skipWS r3
      let ds := r4.takeWhile isNumTok
      if ds.isEmpty then none
      else
        match r4.dropWhile isNumTok with
        | '%' :: _ => some ds
        | _ => none
    | _ => none

/-- Position matcher for a pattern of shape label, whitespace, colon,
whitespace, a nonempty digit capture; returns the capture. -/
def matchIntAt (label : List Char) (s : List Char) : Option (List Char) :=
  (matchLitCI label s).bind fun r1 =>
    match skipWS r1 with
    | ':' :: r3 =>
      let ds := (skipWS r3).takeWhile Char.isDigit
      if ds.isEmpty then none else some ds
    | _ => none

/-- Position matcher for the account-age patterns: the account-age label,
colon, a numeric capture, whitespace, then a unit literal. -/
def matchAgeAt (unit : List Char) (s : List Char) : Option (List Char) :=
  (matchLitCI accountAgeLit s).bind fun r1 =>
    match skipWS r1 with
    | ':' :: r3 =>
      let r4 := skipWS r3
      let ds := r4.takeWhile isNumTok
      if ds.isEmpty then none
      else
        match matchLitCI unit (skipWS (r4.dropWhile isNumTok)) with
        | some _ => some ds
        | none => none
    | _ => none

/-- Colon followed by a digit capture, shared by the late- and
missed-payment matchers. -/
def colonInt (r : List Char) : Option (List Char) :=
  match skipWS r with
  | ':' :: r3 =>
    let ds := (skipWS r3).takeWhile Char.isDigit
    if ds.isEmpty then none else some ds
  | _ => none

/-- Position matcher for a payment pattern: label, an optional letter s
(tried greedily first, as the regex engine does), colon, digit capture. -/
def matchPayAt (label : List Char) (s : List Char) : Option (List Char) :=
  (matchLitCI label s).bind fun r1 =>
    match matchLitCI ['s'] r1 with
    | some r2 => (colonInt r2).orElse fun _ => colonInt r1
    | none => colonInt r1

/-- Position matcher for a status marker: the status literal, whitespace,
colon, whitespace, then the given word; returns the remainder, for
counting non-overlapping occurrences. -/
def matchStatusAt (word : List Char) (s : List Char) : Option (List Char) :=
  (matchLitCI statusLit s).bind fun r1 =>
    match skipWS r1 with
    | ':' :: r3 => matchLitCI word (skipWS r3)
    | _ => none

/-- Position matcher for the days-past-due pattern: the literal, colon,
then a nonempty run of digits and whitespace.  The whitespace-star piece
before the capture overlaps the capture class, so the regex backtracking
case is modelled: if the run holds a digit the capture is the run without
its leading whitespace, otherwise the capture is the run's final
whitespace character.  Returns the capture and the remainder after the
match. -/
def matchDPDAt (s : List Char) : Option (List Char × List Char) :=
  (matchLitCS dpdLit s).bind fun r1 =>
    match skipWS r1 with
    | ':' :: r3 =>
      let run := r3.takeWhile isDigSpace
      let rest := r3.dropWhile isDigSpace
      if run.isEmpty then none
      else
        match run.dropWhile pyIsSpace with
        | [] => some (run.drop (run.length - 1), rest)
        | x :: t => some (x :: t, rest)
    | _ => none

/-- Number of status-open markers in a text. -/
def countStatusOpen (text : List Char) : ℕ :=
  countMatches (matchStatusAt openLit) text

/-- Number of status-closed markers in a text. -/
def countStatusClosed (text : List Char) : ℕ :=
  countMatches (matchStatusAt closedLit) text

/-- One entry of the payment-history list built by
`extract_credit_info`: a days-past-due group, a late-payment count or a
missed-payment count. -/
inductive PayHist : Type
  | dpd (months : List ℕ)
  | late_payments (n : ℕ)
  | missed_payments (n : ℕ)
deriving DecidableEq, Repr

/-- The record built by `credit_analyzer.extract_credit_info`.  A field
the code stores as Python None is an `Option` holding none; the count
fields are always set, hence bare naturals. -/
structure CreditInfo : Type where
  credit_utilization_percent : Option ℚ
  number_of_open_accounts : ℕ
  number_of_closed_accounts : ℕ
  account_age_years : Option ℚ
  credit_card_count : ℕ
  loan_count : ℕ
  recent_inquiries : ℕ
  payment_history : Option (List PayHist)
deriving DecidableEq, Repr

/-- Utilization cascade of `extract_credit_info`: the labeled pattern is
searched first and its capture converted by float; only when it matches
nowhere is the generic pattern searched.  A malformed capture raises. -/
def utilField (text : List Char) : Except Unit (Option ℚ) :=
  match searchO (matchNumPctAt creditUtilizationLit) text with
  | some cap => (pyFloatE (stripCommas cap)).map some
  | none =>
    match searchO (matchNumPctAt utilizationLit) text with
    | some cap => (pyFloatE (stripCommas cap)).map some
    | none => Except.ok none

/-- Open-accounts rule: the explicit label wins; otherwise the count of
status-open markers is authoritative. -/
def openAccountsField (text : List Char) : ℕ :=
  match searchO (matchIntAt openAccountsLit) text with
  | some ds => digitsToNat ds
  | none => countStatusOpen text

/-- Account-age cascade: years first, then months divided by twelve.  A
malformed capture raises. -/
def ageField (text : List Char) : Except Unit (Option ℚ) :=
  match searchO (matchAgeAt yrsLit) text with
  | some cap => (pyFloatE (stripCommas cap)).map some
  | none =>
    match searchO (matchAgeAt monthsLit) text with
    | some cap => (pyFloatE (stripCommas cap)).map fun v => some (v / 12)
    | none => Except.ok none

/-- Credit-card rule: explicit labeled count, else the number of
occurrences of the literal. -/
def creditCardField (text : List Char) : ℕ :=
  match searchO (matchIntAt creditCardLit) text with
  | some ds => digitsToNat ds
  | none => countMatches (matchLitCI creditCardLit) text

/-- Loan rule: explicit labeled count, else the number of occurrences of
the literal. -/
def loanField (text : List Char) : ℕ :=
  match searchO (matchIntAt loanLit) text with
  | some ds => digitsToNat ds
  | none => countMatches (matchLitCI loanLit) text

/-- Recent inquiries: the number of occurrences of the enquiry-date
literal. -/
def inquiriesField (text : List Char) : ℕ :=
  countMatches (matchLitCI enquiryDateLit) text

/-- Months list of one days-past-due capture: whitespace tokens that are
all digits, converted to numbers. -/
def dpdMonths (cap : List Char) : List ℕ :=
  ((splitWS cap).filter pyStrIsdigit).map digitsToNat

/-- Payment-history list: one entry per days-past-due match, then the
late-payment count, then the missed-payment count, when present; Python
None when the list stays empty. -/
def paymentHistoryField (text : List Char) : Option (List PayHist) :=
  let l1 := (findAllAux matchDPDAt text.length text).map fun cap => PayHist.dpd (dpdMonths cap)
  let l2 :=
    match searchO (matchPayAt latePaymentLit) text with
    | some ds => l1 ++ [PayHist.late_payments (digitsToNat ds)]
    | none => l1
  let l3 :=
    match searchO (matchPayAt missedPaymentLit) text with
    | some ds => l2 ++ [PayHist.missed_payments (digitsToNat ds)]
    | none => l2
  if l3.isEmpty then none else some l3

/-- The embedding of `credit_analyzer.extract_credit_info`.  The two
float conversions run in source order (utilization before account age);
either may raise, aborting the whole call; every other field is
exception-free. -/
def extract_credit_info (text : List Char) : Except Unit CreditInfo := do
  let util ← utilField text
  let age ← ageField text
  pure
    { credit_utilization_percent := util
      number_of_open_accounts := openAccountsField text
      number_of_closed_accounts := countStatusClosed text
      account_age_years := age
      credit_card_count := creditCardField text
      loan_count := loanField text
      recent_inquiries := inquiriesField text
      payment_history := paymentHistoryField text }

/-- The record built by `app.extract_credit_info`. -/
structure AppInfo : Type where
  credit_utilization_percent : Option ℚ
  number_of_open_accounts : ℕ
  missed_payments : ℕ
deriving DecidableEq, Repr

/-- Missed-payments rule of `app.extract_credit_info`: the late-payment
labeled count when present, else zero. -/
def missedField (text : List Char) : ℕ :=
  match searchO (matchPayAt latePaymentLit) text with
  | some ds => digitsToNat ds
  | none => 0

/-- The embedding of `app.extract_credit_info`: the same utilization
cascade and open-accounts rule, plus the missed-payments rule. -/
def extract_credit_info_app (text : List Char) : Except Unit AppInfo := do
  let util ← utilField text
  pure
    { credit_utilization_percent := util
      number_of_open_accounts := openAccountsField text
      missed_payments := missedField text }

/-- The fixed sixteen-entry service catalog of `extract_subscriptions`
and `parse_csv_financial_data`. -/
def knownServices : List (List Char) :=
  (["Spotify", "Netflix", "Amazon Prime", "Hotstar", "SonyLIV", "Apple Music",
    "YouTube Premium", "Gaana", "JioSaavn", "ALTBalaji", "Zee5", "Voot", "Prime Video",
    "Disney+", "Airtel Xstream", "Sun NXT"]).map String.toList

/-- Compile a catalog name into regex tokens, as re.search receives it:
each character is a literal, and a following plus sign turns the
preceding character into a one-or-more repetition.  The plus sign is the
only regex metacharacter occurring in the catalog. -/
def compilePat : List Char → List (Char × Bool)
  | [] => []
  | [c] => [(c, false)]
  | c :: d :: rest =>
    if d = '+' then (c, true) :: compilePat rest
    else (c, false) :: compilePat (d :: rest)

/-- Match a compiled token list at the head of the text,
case-insensitively; a plus token consumes one character and then either
continues with the rest of the tokens or repeats. -/
def matchToks : List (Char × Bool) → List Char → Bool
  | [], _ => true
  | _ :: _, [] => false
  | (c, false) :: ts, x :: xs => charEqCI c x && matchToks ts xs
  | (c, true) :: ts, x :: xs =>
    charEqCI c x && (matchToks ts xs || matchToks ((c, true) :: ts) xs)

/-- The embedding of re.search of a catalog name over a text with the
IGNORECASE flag: the name compiled as a pattern, tried at every
position. -/
def reSearchName (name text : List Char) : Bool :=
  scanAny (matchToks (compilePat name)) text

/-- The embedding of `extract_subscriptions`: the catalog entries, in
catalog order, whose name — used as a regex pattern — matches somewhere
in the text. -/
def extract_subscriptions (text : List Char) : List (List Char) :=
  knownServices.filter fun s => reSearchName s text

/-- Case-insensitive prefix test. -/
def startsWithCI : List Char → List Char → Bool
  | [], _ => true
  | _ :: _, [] => false
  | c :: cs, x :: xs => charEqCI c x && startsWithCI cs xs

/-- Case-insensitive substring test — the relation the specification
states for subscription detection. -/
def substrCI (n : List Char) (h : List Char) : Bool :=
  scanAny (startsWithCI n) h

/-- Case-sensitive substring test, the Python `in` operator on
strings. -/
def substrCS (n : List Char) (h : List Char) : Bool :=
  scanAny (fun s => n.isPrefixOf s) h

/-- Lower-case a string, the Python str.lower call (ASCII folding). -/
def lowerL (s : List Char) : List Char :=
  s.map Char.toLower

/-- One tabular row as `parse_csv_financial_data` reads it: description,
amount and date columns (a missing column is the empty string). -/
structure Row : Type where
  description : List Char
  amount : List Char
  date : List Char
deriving DecidableEq, Repr

/-- Rent keyword set of the tabular parser. -/
def rent_keywords : List (List Char) :=
  (["rent", "house rent", "flat rent", "apartment rent"]).map String.toList

/-- Recurring-obligation keyword set of the tabular parser, exactly as
the source writes it: the first keyword is upper-case EMI. -/
def recurring_keywords : List (List Char) :=
  (["EMI", "insurance", "loan", "credit card", "sip", "mutual fund", "subscription"]).map String.toList

/-- The record returned by `parse_csv_financial_data`. -/
structure CsvInfo : Type where
  rent_payments : List Row
  recurring_obligations : List Row
  subscriptions : List (List Char)
deriving DecidableEq, Repr

/-- Membership-based set insertion on a duplicate-free list, the
embedding of Python set add (the set is modelled as the list of its
elements in first-insertion order; Python leaves the order
unspecified). -/
def setAdd (s : List (List Char)) (x : List Char) : List (List Char) :=
  if x ∈ s then s else s ++ [x]

/-- Classification of one row: the lower-cased description is tested for
rent keywords, for lowered catalog names and for recurring keywords by
the case-sensitive substring operator; the three classes are
independent. -/
def csvStep (acc : List Row × List Row × List (List Char)) (row : Row) :
    List Row × List Row × List (List Char) :=
  let desc := lowerL row.description
  let outRow : Row := { description := desc, amount := row.amount, date := row.date }
  let rents := if rent_keywords.any (fun k => substrCS k desc) then acc.1 ++ [outRow] else acc.1
  let subs := knownServices.foldl
    (fun s sub => if substrCS (lowerL sub) desc then setAdd s sub else s) acc.2.2
  let recs :=
    if recurring_keywords.any (fun k => substrCS k desc) then acc.2.1 ++ [outRow] else acc.2.1
  (rents, recs, subs)

/-- The embedding of `parse_csv_financial_data` over the parsed rows of
all input files: rent payments and recurring obligations in row order,
subscriptions collected as a set and returned as a list. -/
def parse_csv_financial_data (rows : List Row) : CsvInfo :=
  let r := rows.foldl csvStep ([], [], [])
  { rent_payments := r.1, recurring_obligations := r.2.1, subscriptions := r.2.2 }

/-- The consolidated summary: the text-extracted record passes through,
the two tabular lists come from the tabular source, and the subscription
identifiers are the set union of both origins. -/
structure Summary : Type where
  pdf_info : CreditInfo
  rent_payments : List Row
  recurring_obligations : List Row
  active_subscriptions : Finset (List Char)

/-- The embedding of `consolidate_summary`: Python builds
set of the text list, unions it with set of the tabular list, and stores
the result (its list order is unspecified, so the set itself is the
modelled value). -/
def consolidate_summary (pdf_info : CreditInfo) (csv_info : CsvInfo)
    (pdf_subs : List (List Char)) : Summary :=
  { pdf_info := pdf_info
    rent_payments := csv_info.rent_payments
    recurring_obligations := csv_info.recurring_obligations
    active_subscriptions := pdf_subs.toFinset ∪ csv_info.subscriptions.toFinset }

/-- Python truthiness default for an optional number: the value when it
is present and nonzero, else zero — the or-zero idiom of the feature
construction in `api_auto_analysis`. -/
def pyOrZeroQ (o : Option ℚ) : ℚ :=
  match o with
  | none => 0
  | some v => if v = 0 then 0 else v

/-- Python truthiness default for a count. -/
def pyOrZeroN (n : ℕ) : ℕ :=
  if n = 0 then 0 else n

/-- The five-element feature vector `api_auto_analysis` builds from the
extracted record: utilization, open accounts, missed payments, then the
fixed placeholders twenty thousand for monthly rent and two for active
subscriptions. -/
def auto_analysis_features (info : AppInfo) : List ℚ :=
  [pyOrZeroQ info.credit_utilization_percent,
   (pyOrZeroN info.number_of_open_accounts : ℚ),
   (pyOrZeroN info.missed_payments : ℚ),
   20000,
   2]

/-- The canonical feature-key order of the model contract. -/
def MODEL_FEATURES : List (List Char) :=
  (["credit_utilization", "open_accounts", "missed_payments", "monthly_rent",
    "active_subscriptions"]).map String.toList

/-- Lookup in a JSON object modelled as an association list with numeric
values; a JSON object has unique keys, so the first binding is the
binding. -/
def dictGet (d : List (List Char × ℚ)) (k : List Char) : Option ℚ :=
  (d.find? fun p => p.1 == k).map fun p => p.2

/-- The feature vector `api_predict` builds: for each canonical key in
order, the request value or zero when the key is absent — the dict-get
with default zero of the source. -/
def api_predict_features (d : List (List Char × ℚ)) : List ℚ :=
  MODEL_FEATURES.map fun f => (dictGet d f).getD 0

/-- The fitted per-feature normalization: mean and scale pairs applied as
value minus mean over scale; the identity when no parameters are
loaded. -/
def scaler_transform : Option (List (ℚ × ℚ)) → List ℚ → List ℚ
  | none, xs => xs
  | some ps, xs => (xs.zip ps).map fun p => (p.1 - p.2.1) / p.2.2

/-- Rectified-linear activation. -/
def relu (x : ℝ) : ℝ := max x 0

/-- Logistic sigmoid. -/
noncomputable def sigmoid (x : ℝ) : ℝ :=
  1 / (1 + Real.exp (-x))

/-- The weights of `CreditScoreNet`: three affine layers of widths five to
thirty-two to sixteen to one. -/
structure NetParams : Type where
  w1 : Fin 32 → Fin 5 → ℝ
  b1 : Fin 32 → ℝ
  w2 : Fin 16 → Fin 32 → ℝ
  b2 : Fin 16 → ℝ
  w3 : Fin 1 → Fin 16 → ℝ
  b3 : Fin 1 → ℝ

/-- One affine layer. -/
noncomputable def dense {m n : ℕ} (w : Fin m → Fin n → ℝ) (b : Fin m → ℝ)
    (x : Fin n → ℝ) : Fin m → ℝ :=
  fun i => (∑ j, w i j * x j) + b i

/-- Lower bound of the score range, as the source sets it. -/
def output_min : ℝ := 300

/-- Upper bound of the score range, as the source sets it. -/
def output_max : ℝ := 900

/-- The embedding of `CreditScoreNet.forward`: linear to thirty-two
units, relu, linear to sixteen, relu, linear to one, sigmoid, then the
affine rescale by the output range. -/
noncomputable def creditScoreNet_forward (p : NetParams) (x : Fin 5 → ℝ) : ℝ :=
  let h1 := fun i => relu (dense p.w1 p.b1 x i)
  let h2 := fun i => relu (dense p.w2 p.b2 h1 i)
  let raw := dense p.w3 p.b3 h2 0
  sigmoid raw * (output_max - output_min) + output_min

/-- Score of a rational feature list: the first five entries coerced to
the reals and fed through the network. -/
noncomputable def scoreOfFeatures (p : NetParams) (xs : List ℚ) : ℝ :=
  creditScoreNet_forward p fun i => ((xs.getD (i : ℕ) 0 : ℚ) : ℝ)

/-- The direct-prediction endpoint: features from the request mapping,
normalization, scoring.  Total — the source performs no validation,
range check or rejection on the way to the model. -/
noncomputable def api_predict_score (p : NetParams) (sc : Option (List (ℚ × ℚ)))
    (d : List (List Char × ℚ)) : ℝ :=
  scoreOfFeatures p (scaler_transform sc (api_predict_features d))

/-- The document path score: features from the extracted record,
normalization, scoring. -/
noncomputable def auto_analysis_score (p : NetParams) (sc : Option (List (ℚ × ℚ)))
    (info : AppInfo) : ℝ :=
  scoreOfFeatures p (scaler_transform sc (auto_analysis_features info))

/-- The staging path `api_auto_analysis` saves every uploaded document
to, exactly as the source spells it: one fixed constant. -/
def temp_path : List Char := "temp_uploaded.pdf".toList

/-- Staging path as a function of a request identifier: the source
computes the same constant for every request, so the identifier is
ignored. -/
def staged_upload_path (_request_id : ℕ) : List Char := temp_path

deriving instance DecidableEq for Except

/-- Bounds of the logistic sigmoid: its value lies strictly between zero
and one for every real argument. -/
theorem sigmoid_pos_lt_one (x : ℝ) : 0 < sigmoid x ∧ sigmoid x < 1 := by
  have h : (0 : ℝ) < 1 + Real.exp (-x) := by positivity
  constructor
  · unfold sigmoid
    positivity
  · unfold sigmoid
    rw [div_lt_one h]
    linarith [Real.exp_pos (-x)]

/-- Affine rescale of a sigmoid output lands strictly inside the score
range. -/
theorem sigmoid_rescale_range (y : ℝ) :
    300 < sigmoid y * (output_max - output_min) + output_min ∧
      sigmoid y * (output_max - output_min) + output_min < 900 := by
  obtain ⟨h0, h1⟩ := sigmoid_pos_lt_one y
  unfold output_min output_max
  constructor <;> nlinarith

/-- C1: for every weight assignment and every finite real five-element
input vector, the `CreditScoreNet` forward pass — linear map to 32 units,
relu, linear map to 16 units, relu, linear map to 1 unit, sigmoid, then
the rescale 300 + sigmoid output times 600 — returns a score strictly
between 300 and 900, hence within the closed range from 300 to 900. -/
theorem creditScoreNet_forward_range (p : NetParams) (x : Fin 5 → ℝ) :
    300 < creditScoreNet_forward p x ∧ creditScoreNet_forward p x < 900 :=
  sigmoid_rescale_range _

/-- C2: a text whose utilization label matches while the captured numeric
token is malformed makes the whole `extract_credit_info` call raise — the
sibling open-accounts field, present in the same text, is lost with it,
instead of only the utilization field becoming absent. -/
theorem malformed_numeric_capture_aborts_extraction :
    extract_credit_info ("Credit Utilization: .% Open Accounts: 4".toList) =
      Except.error () := by decide

/-- C4: a row whose description contains the word EMI in any letter case
is not appended to the recurring obligations — the upper-case keyword is
compared against the lower-cased description and can never match — while
a lower-case keyword such as insurance does classify its row. -/
theorem emi_row_not_recurring_obligation :
    (parse_csv_financial_data
        [{ description := "Car EMI payment".toList, amount := "5000".toList,
           date := "2024-01-05".toList }]).recurring_obligations = [] ∧
    (parse_csv_financial_data
        [{ description := "Life insurance premium".toList, amount := "2000".toList,
           date := "2024-01-06".toList }]).recurring_obligations =
      [{ description := "life insurance premium".toList, amount := "2000".toList,
         date := "2024-01-06".toList }] := by decide

/-- C6: consolidation stores as active subscriptions the duplicate-free
set union of the text-origin and tabular-origin subscription lists, and
the stored set is unchanged under reordering or duplication of either
input list — hence also under re-running consolidation on the same
inputs. -/
theorem consolidate_subscriptions_union (pdf_info : CreditInfo)
    (csv_info csv_info2 : CsvInfo) (pdf_subs pdf_subs2 : List (List Char))
    (hp : pdf_subs.toFinset = pdf_subs2.toFinset)
    (hc : csv_info.subscriptions.toFinset = csv_info2.subscriptions.toFinset) :
    (consolidate_summary pdf_info csv_info pdf_subs).active_subscriptions
      = pdf_subs.toFinset ∪ csv_info.subscriptions.toFinset ∧
    (consolidate_summary pdf_info csv_info2 pdf_subs2).active_subscriptions
      = (consolidate_summary pdf_info csv_info pdf_subs).active_subscriptions := by
  refine ⟨rfl, ?_⟩
  simp only [consolidate_summary, hp, hc]

/-- Witness for C6 at concrete inputs: the second list is a reordered
duplicate-carrying variant of the first, and both consolidations agree
with the plain union. -/
theorem consolidate_subscriptions_union_witness :
    (consolidate_summary ⟨none, 0, 0, none, 0, 0, 0, none⟩
        ⟨[], [], ["Netflix".toList]⟩ ["Spotify".toList, "Netflix".toList]).active_subscriptions
      = (["Spotify".toList, "Netflix".toList]).toFinset ∪ (["Netflix".toList]).toFinset ∧
    (consolidate_summary ⟨none, 0, 0, none, 0, 0, 0, none⟩
        ⟨[], [], ["Netflix".toList, "Netflix".toList]⟩
        ["Netflix".toList, "Spotify".toList, "Spotify".toList]).active_subscriptions
      = (consolidate_summary ⟨none, 0, 0, none, 0, 0, 0, none⟩
          ⟨[], [], ["Netflix".toList]⟩
          ["Spotify".toList, "Netflix".toList]).active_subscriptions :=
  consolidate_subscriptions_union _ _ _ _ _ (by decide) (by decide)

/-- C7 (refuted): the staging path of the upload endpoint is one fixed
constant, identical for every request identifier, so two concurrent
requests collide on the same temporary file. -/
theorem staged_upload_path_constant :
    staged_upload_path 0 = staged_upload_path 1 ∧
      staged_upload_path 0 = "temp_uploaded.pdf".toList :=
  ⟨rfl, rfl⟩

/-- Decomposition of a successful extraction: the returned record holds
the value of the utilization cascade and of the open-accounts rule. -/
theorem extract_ok_parts (text : List Char) (info : CreditInfo)
    (h : extract_credit_info text = Except.ok info) :
    utilField text = Except.ok info.credit_utilization_percent ∧
    info.number_of_open_accounts = openAccountsField text := by
  cases hu : utilField text with
  | error e => simp [extract_credit_info, hu, Bind.bind, Except.bind] at h
  | ok u =>
    cases ha : ageField text with
    | error e =>
      simp [extract_credit_info, hu, ha, Bind.bind, Except.bind, Functor.map,
        Except.map] at h
    | ok a =>
      simp [extract_credit_info, hu, ha, Bind.bind, Except.bind, Functor.map,
        Except.map, Pure.pure, Except.pure] at h
      subst h
      exact ⟨rfl, rfl⟩

/-- Decomposition of a successful extraction on the web path: the record
holds the utilization cascade value, the open-accounts rule value and the
missed-payments rule value. -/
theorem extract_app_ok_parts (text : List Char) (info : AppInfo)
    (h : extract_credit_info_app text = Except.ok info) :
    utilField text = Except.ok info.credit_utilization_percent ∧
    info.number_of_open_accounts = openAccountsField text ∧
    info.missed_payments = missedField text := by
  cases hu : utilField text with
  | error e => simp [extract_credit_info_app, hu, Bind.bind, Except.bind] at h
  | ok u =>
    simp [extract_credit_info_app, hu, Bind.bind, Except.bind, Functor.map,
      Except.map, Pure.pure, Except.pure] at h
    subst h
    exact ⟨rfl, rfl, rfl⟩

/-- C8: the utilization patterns form a strict cascade.  Whenever the
labeled pattern matches anywhere in the text, the value stored is the
parse of its capture, whatever the generic pattern would say; the generic
pattern is consulted only when the labeled one matches nowhere, and when
neither matches the field is absent. -/
theorem utilization_labeled_pattern_precedence (text : List Char) (info : CreditInfo)
    (h : extract_credit_info text = Except.ok info) :
    (∀ cap, searchO (matchNumPctAt creditUtilizationLit) text = some cap →
      ∃ v, pyFloatDD (stripCommas cap) = some v ∧
        info.credit_utilization_percent = some v) ∧
    (searchO (matchNumPctAt creditUtilizationLit) text = none →
      (∀ cap, searchO (matchNumPctAt utilizationLit) text = some cap →
        ∃ v, pyFloatDD (stripCommas cap) = some v ∧
          info.credit_utilization_percent = some v) ∧
      (searchO (matchNumPctAt utilizationLit) text = none →
        info.credit_utilization_percent = none)) := by
  obtain ⟨hu, -⟩ := extract_ok_parts text info h
  constructor
  · intro cap hcap
    rw [utilField, hcap] at hu
    cases hv : pyFloatDD (stripCommas cap) with
    | none => simp [pyFloatE, hv, Except.map] at hu
    | some v =>
      refine ⟨v, rfl, ?_⟩
      simp [pyFloatE, hv, Except.map] at hu
      exact hu.symm
  · intro hnone
    rw [utilField, hnone] at hu
    constructor
    · intro cap hcap
      rw [hcap] at hu
      cases hv : pyFloatDD (stripCommas cap) with
      | none => simp [pyFloatE, hv, Except.map] at hu
      | some v =>
        refine ⟨v, rfl, ?_⟩
        simp [pyFloatE, hv, Except.map] at hu
        exact hu.symm
    · intro hnone2
      rw [hnone2] at hu
      simpa using hu.symm

/-- Witness for C8 on a text where both utilization patterns can match
with different numbers: the labeled value ten is stored, not the generic
twenty. -/
theorem utilization_labeled_pattern_precedence_witness :
    ∃ v, pyFloatDD (stripCommas ("10".toList)) = some v ∧
      ({ credit_utilization_percent := some 10, number_of_open_accounts := 0,
         number_of_closed_accounts := 0, account_age_years := none,
         credit_card_count := 0, loan_count := 0, recent_inquiries := 0,
         payment_history := none } : CreditInfo).credit_utilization_percent = some v :=
  (utilization_labeled_pattern_precedence
      ("Credit Utilization: 10% Utilization: 20%".toList) _ (by decide)).1
    ("10".toList) (by decide)

/-- C9: with no explicit open-accounts label anywhere in the text, the
stored open-account count is the number of status-open markers — the
heuristic count, possibly zero, is authoritative and the field is never
absent (its type is a bare count). -/
theorem open_accounts_status_open_fallback (text : List Char) (info : CreditInfo)
    (h : extract_credit_info text = Except.ok info)
    (hno : searchO (matchIntAt openAccountsLit) text = none) :
    info.number_of_open_accounts = countStatusOpen text := by
  obtain ⟨-, ho⟩ := extract_ok_parts text info h
  rw [ho, openAccountsField, hno]

/-- Witness for C9: a text with three status-open markers and no label
yields open-account count three. -/
theorem open_accounts_status_open_fallback_witness :
    ({ credit_utilization_percent := none, number_of_open_accounts := 3,
       number_of_closed_accounts := 0, account_age_years := none,
       credit_card_count := 0, loan_count := 0, recent_inquiries := 0,
       payment_history := none } : CreditInfo).number_of_open_accounts = 3 :=
  (open_accounts_status_open_fallback
      ("Status: Open Status: Open Status: Open".toList) _ (by decide)
      (by decide)).trans (by decide)

/-- C3: the feature vector of the document-only analysis path has exactly
five entries in the canonical order — utilization, open accounts, missed
payments, monthly rent, active subscriptions — with the fixed
placeholders twenty thousand and two in the rent and subscription slots,
zero in place of an absent utilization, and the extracted counts passed
through. -/
theorem auto_analysis_feature_vector (text : List Char) (info : AppInfo)
    (_h : extract_credit_info_app text = Except.ok info) :
    (auto_analysis_features info).length = 5 ∧
    (auto_analysis_features info).getD 3 0 = 20000 ∧
    (auto_analysis_features info).getD 4 0 = 2 ∧
    (info.credit_utilization_percent = none →
      (auto_analysis_features info).getD 0 0 = 0) ∧
    (∀ v, info.credit_utilization_percent = some v →
      (auto_analysis_features info).getD 0 0 = v) ∧
    (auto_analysis_features info).getD 1 0 = (info.number_of_open_accounts : ℚ) ∧
    (auto_analysis_features info).getD 2 0 = (info.missed_payments : ℚ) := by
  refine ⟨rfl, rfl, rfl, ?_, ?_, ?_, ?_⟩
  · intro hnone
    simp [auto_analysis_features, pyOrZeroQ, hnone]
  · intro v hv
    show pyOrZeroQ info.credit_utilization_percent = v
    rw [hv, pyOrZeroQ]
    split
    · rename_i h0
      exact h0.symm
    · rfl
  · show (pyOrZeroN info.number_of_open_accounts : ℚ) = _
    rw [pyOrZeroN]
    split
    · rename_i h0
      rw [h0]
    · rfl
  · show (pyOrZeroN info.missed_payments : ℚ) = _
    rw [pyOrZeroN]
    split
    · rename_i h0
      rw [h0]
    · rfl

/-- Witness for C3 at a concrete document text carrying only an
open-accounts label: utilization defaults to zero and the placeholders
fill the rent and subscription slots. -/
theorem auto_analysis_feature_vector_witness :
    (auto_analysis_features ⟨none, 4, 0⟩).length = 5 ∧
    (auto_analysis_features ⟨none, 4, 0⟩).getD 3 0 = 20000 ∧
    (auto_analysis_features ⟨none, 4, 0⟩).getD 4 0 = 2 ∧
    ((⟨none, 4, 0⟩ : AppInfo).credit_utilization_percent = none →
      (auto_analysis_features ⟨none, 4, 0⟩).getD 0 0 = 0) ∧
    (∀ v, (⟨none, 4, 0⟩ : AppInfo).credit_utilization_percent = some v →
      (auto_analysis_features ⟨none, 4, 0⟩).getD 0 0 = v) ∧
    (auto_analysis_features ⟨none, 4, 0⟩).getD 1 0
      = ((⟨none, 4, 0⟩ : AppInfo).number_of_open_accounts : ℚ) ∧
    (auto_analysis_features ⟨none, 4, 0⟩).getD 2 0
      = ((⟨none, 4, 0⟩ : AppInfo).missed_payments : ℚ) :=
  auto_analysis_feature_vector ("Open Accounts: 4".toList) ⟨none, 4, 0⟩ (by decide)

/-- C10: the direct-prediction endpoint builds a five-entry vector over
the canonical keys; a key present in the request mapping contributes its
value unchanged — no range check — and an absent key is silently
replaced by zero. -/
theorem api_predict_absent_features_default_zero (d : List (List Char × ℚ)) :
    (api_predict_features d).length = 5 ∧
    ∀ i : Fin 5,
      (dictGet d (MODEL_FEATURES.getD (i : ℕ) []) = none →
        (api_predict_features d).getD (i : ℕ) 0 = 0) ∧
      (∀ v, dictGet d (MODEL_FEATURES.getD (i : ℕ) []) = some v →
        (api_predict_features d).getD (i : ℕ) 0 = v) := by
  refine ⟨rfl, ?_⟩
  intro i
  fin_cases i
  · exact ⟨fun h0 => by
        have h1 : dictGet d ("credit_utilization".toList) = none := h0
        show (dictGet d ("credit_utilization".toList)).getD 0 = 0
        rw [h1]
        rfl,
      fun v hv => by
        have h1 : dictGet d ("credit_utilization".toList) = some v := hv
        show (dictGet d ("credit_utilization".toList)).getD 0 = v
        rw [h1]
        rfl⟩
  · exact ⟨fun h0 => by
        have h1 : dictGet d ("open_accounts".toList) = none := h0
        show (dictGet d ("open_accounts".toList)).getD 0 = 0
        rw [h1]
        rfl,
      fun v hv => by
        have h1 : dictGet d ("open_accounts".toList) = some v := hv
        show (dictGet d ("open_accounts".toList)).getD 0 = v
        rw [h1]
        rfl⟩
  · exact ⟨fun h0 => by
        have h1 : dictGet d ("missed_payments".toList) = none := h0
        show (dictGet d ("missed_payments".toList)).getD 0 = 0
        rw [h1]
        rfl,
      fun v hv => by
        have h1 : dictGet d ("missed_payments".toList) = some v := hv
        show (dictGet d ("missed_payments".toList)).getD 0 = v
        rw [h1]
        rfl⟩
  · exact ⟨fun h0 => by
        have h1 : dictGet d ("monthly_rent".toList) = none := h0
        show (dictGet d ("monthly_rent".toList)).getD 0 = 0
        rw [h1]
        rfl,
      fun v hv => by
        have h1 : dictGet d ("monthly_rent".toList) = some v := hv
        show (dictGet d ("monthly_rent".toList)).getD 0 = v
        rw [h1]
        rfl⟩
  · exact ⟨fun h0 => by
        have h1 : dictGet d ("active_subscriptions".toList) = none := h0
        show (dictGet d ("active_subscriptions".toList)).getD 0 = 0
        rw [h1]
        rfl,
      fun v hv => by
        have h1 : dictGet d ("active_subscriptions".toList) = some v := hv
        show (dictGet d ("active_subscriptions".toList)).getD 0 = v
        rw [h1]
        rfl⟩

/-- Witness for C10 on a request mapping holding only the utilization
key: the present key passes through and an absent key becomes zero. -/
theorem api_predict_absent_features_default_zero_witness :
    (api_predict_features [("credit_utilization".toList, (30 : ℚ))]).getD 0 0 = 30 ∧
    (api_predict_features [("credit_utilization".toList, (30 : ℚ))]).getD 3 0 = 0 :=
  ⟨((api_predict_absent_features_default_zero
        [("credit_utilization".toList, (30 : ℚ))]).2 0).2 30 (by decide),
    ((api_predict_absent_features_default_zero
        [("credit_utilization".toList, (30 : ℚ))]).2 3).1 (by decide)⟩

/-- Compiling a plus-free name yields only literal tokens. -/
theorem compilePat_noPlus (s : List Char) (hs : '+' ∉ s) :
    compilePat s = s.map fun c => (c, false) := by
  induction s with
  | nil => rfl
  | cons c rest ih =>
    cases rest with
    | nil => rfl
    | cons d rest2 =>
      have hd : d ≠ '+' := fun h => hs (by simp [h])
      have hrest : '+' ∉ d :: rest2 := fun h => hs (List.mem_cons_of_mem _ h)
      simp [compilePat, hd, ih hrest]

/-- A literal token list matches at the head exactly when the name is a
case-insensitive prefix there. -/
theorem matchToks_map_false (s : List Char) :
    ∀ h, matchToks (s.map fun c => (c, false)) h = startsWithCI s h := by
  induction s with
  | nil => intro h; simp [matchToks, startsWithCI]
  | cons c cs ih =>
    intro h
    cases h with
    | nil => simp [matchToks, startsWithCI]
    | cons x xs => simp [matchToks, startsWithCI, ih]

/-- Scanning with pointwise-equal position predicates gives the same
result. -/
theorem scanAny_congr (m1 m2 : List Char → Bool) (hm : ∀ s, m1 s = m2 s)
    (h : List Char) : scanAny m1 h = scanAny m2 h := by
  induction h with
  | nil => simp [scanAny, hm]
  | cons x t ih => simp [scanAny, hm, ih]

/-- Plus-free catalog names are searched exactly as case-insensitive
substrings. -/
theorem reSearchName_eq_substrCI (s : List Char) (hs : '+' ∉ s) (text : List Char) :
    reSearchName s text = substrCI s text := by
  unfold reSearchName substrCI
  rw [compilePat_noPlus s hs]
  exact scanAny_congr _ _ (matchToks_map_false s) text

/-- The one catalog name holding a plus sign compiles to five literal
tokens and a one-or-more token. -/
theorem compilePat_disney :
    compilePat ("Disney+".toList)
      = [('D', false), ('i', false), ('s', false), ('n', false), ('e', false),
         ('y', true)] := by decide

/-- A trailing one-or-more token matches at the head like a single
literal: one repetition suffices. -/
theorem matchToks_plus_last (c : Char) :
    ∀ h, matchToks [(c, true)] h = startsWithCI [c] h := by
  intro h
  cases h with
  | nil => simp [matchToks, startsWithCI]
  | cons x xs => simp [matchToks, startsWithCI]

/-- A literal token in front preserves the prefix correspondence. -/
theorem matchToks_cons_false (c : Char) (ts : List (Char × Bool)) (cs : List Char)
    (ih : ∀ h, matchToks ts h = startsWithCI cs h) :
    ∀ h, matchToks ((c, false) :: ts) h = startsWithCI (c :: cs) h := by
  intro h
  cases h with
  | nil => simp [matchToks, startsWithCI]
  | cons x xs => simp [matchToks, startsWithCI, ih]

/-- Searching the compiled Disney-plus pattern is searching for the word
Disney as a case-insensitive substring: the plus sign makes the final
letter one-or-more, and one repetition suffices. -/
theorem reSearchName_disney (text : List Char) :
    reSearchName ("Disney+".toList) text = substrCI ("Disney".toList) text := by
  unfold reSearchName substrCI
  rw [compilePat_disney]
  refine scanAny_congr _ _ ?_ text
  exact matchToks_cons_false 'D' _ _ (matchToks_cons_false 'i' _ _
    (matchToks_cons_false 's' _ _ (matchToks_cons_false 'n' _ _
      (matchToks_cons_false 'e' _ _ (matchToks_plus_last 'y')))))

/-- C5 (amended): extraction returns a duplicate-free sublist of the
catalog; a catalog name other than Disney-plus is selected exactly when
it occurs in the text as a case-insensitive substring, while Disney-plus
— whose name is handed to the regex engine, where the plus sign means
one-or-more — is selected exactly when the word Disney occurs, with or
without a following plus sign. -/
theorem extract_subscriptions_regex_semantics (text : List Char) :
    (extract_subscriptions text).Nodup ∧
    (∀ s, s ∈ knownServices → s ≠ "Disney+".toList →
      (s ∈ extract_subscriptions text ↔ substrCI s text = true)) ∧
    ("Disney+".toList ∈ extract_subscriptions text ↔
      substrCI ("Disney".toList) text = true) := by
  refine ⟨?_, ?_, ?_⟩
  · exact List.Nodup.filter _ (by decide)
  · intro s hs hneq
    have hplus : '+' ∉ s := by
      have hall : ∀ t ∈ knownServices, t ≠ "Disney+".toList → '+' ∉ t := by decide
      exact hall s hs hneq
    simp only [extract_subscriptions, List.mem_filter, hs, true_and]
    rw [reSearchName_eq_substrCI s hplus text]
  · have hd : ("Disney+".toList) ∈ knownServices := by decide
    simp only [extract_subscriptions, List.mem_filter, hd, true_and]
    rw [reSearchName_disney text]

/-- Witness for C5 at a concrete text: the Netflix entry, whose name is
plus-free, is selected for a text containing NETFLIX in capitals. -/
theorem extract_subscriptions_regex_semantics_witness :
    "Netflix".toList ∈ extract_subscriptions ("We pay for NETFLIX monthly".toList) :=
  ((extract_subscriptions_regex_semantics ("We pay for NETFLIX monthly".toList)).2.1
      ("Netflix".toList) (by decide) (by decide)).mpr (by decide)

/-- C5 counterexample: a text containing the word Disney but not the
literal name Disney-plus still yields the Disney-plus catalog entry, so
membership is not literal case-insensitive substring containment of the
catalog name. -/
theorem extract_subscriptions_not_literal_substring :
    "Disney+".toList ∈ extract_subscriptions ("I watch Disney movies".toList) ∧
    substrCI ("Disney+".toList) ("I watch Disney movies".toList) = false := by decide

end CreditUdaan
